import Mathlib

/-!
Shallow embedding of neurobin/python-easyvar.

Part 1 embeds src/easyvar/unro.py: every container class stores its
attributes in a plain dict (an instance dict for instances, a class dict
for the type), and the policy checks are the bodies of the resolved
special methods.  The Python method-resolution order was traced by hand:

* attribute assignment on an instance of class C runs the first
  definition of the setattr special method along the MRO of C;
* item assignment and item deletion run the setitem and delitem methods
  of Map, whose bodies delegate through a super proxy anchored at Map,
  which resolves to the primitive object-level setattr and delattr and
  therefore never reaches a policy override declared in a subclass;
* type-directed attribute assignment and deletion run the metaclass
  methods (ReadonlyMeta, UndeadMeta, or their join UnroMeta).

Errors are classified as in the spec taxonomy: the unconditional and
guard failures raised by policy code are PolicyViolation; the
missing-name failures raised by the primitive dict operations are
KeyNotFound.
-/

namespace Easyvar

/-- Spec error taxonomy: policy rejections versus missing names. -/
inductive Err where
  | policyViolation
  | keyNotFound
deriving DecidableEq, Repr

/-- A Python dict used as an attribute namespace. -/
abbrev NS (α : Type) : Type := List (String × α)

/-- Lookup of a name in a dict. -/
def NS.get {α : Type} : NS α → String → Option α
  | [], _ => none
  | (k2, v) :: t, k => if k2 = k then some v else NS.get t k

/-- Membership test used by the guards (the Python in operator on a dict). -/
def NS.contains {α : Type} (ns : NS α) (k : String) : Bool :=
  (NS.get ns k).isSome

/-- Removal of a binding from a dict. -/
def NS.erase {α : Type} : NS α → String → NS α
  | [], _ => []
  | (k2, v) :: t, k => if k2 = k then NS.erase t k else (k2, v) :: NS.erase t k

/-- The primitive object-level setattr (also the type-level one):
an unconditional write of the binding into the targeted dict. -/
def object_setattr {α : Type} (ns : NS α) (k : String) (v : α) : NS α :=
  (k, v) :: NS.erase ns k

/-- The primitive object-level delattr (also the type-level one):
remove the binding, failing with a missing-name error when absent. -/
def object_delattr {α : Type} (ns : NS α) (k : String) : Except Err (NS α) :=
  if NS.contains ns k then .ok (NS.erase ns k) else .error .keyNotFound

/-- Reading a name from one dict, failing when absent (the body of
Map.__getitem__, and the read of a class dict). -/
def dict_get {α : Type} (ns : NS α) (k : String) : Except Err α :=
  match NS.get ns k with
  | some v => .ok v
  | none => .error .keyNotFound

/-- The write-once guard shared by ReadonlyMeta, ReadonlyMap, Readonly,
Unro and UnroMap: reject when the name is already in the governed dict,
otherwise fall through to the primitive write. -/
def setattr_once {α : Type} (ns : NS α) (k : String) (v : α) : Except Err (NS α) :=
  if NS.contains ns k then .error .policyViolation
  else .ok (object_setattr ns k v)

/-- The container classes defined in unro.py. -/
inductive Container where
  | Base | Map
  | ClassReadonlyMap | ClassReadonly | ClassUndeadMap | ClassUndead
  | ClassUnro | ClassUnroMap
  | ReadonlyMap | Readonly | UndeadMap | Undead | Unro | UnroMap
  | ConstClass
deriving DecidableEq, Repr

/-- The metaclasses of unro.py (plainType stands for the builtin type). -/
inductive MetaClass where
  | plainType | ReadonlyMeta | UndeadMeta | UnroMeta
deriving DecidableEq, Repr

/-- The metaclass declared for each container class.  ConstClass inherits
the UnroMeta metaclass from ClassUnro. -/
def metaclassOf : Container → MetaClass
  | .Base | .Map => .plainType
  | .ClassReadonlyMap | .ClassReadonly | .ReadonlyMap | .Readonly => .ReadonlyMeta
  | .ClassUndeadMap | .ClassUndead | .UndeadMap | .Undead => .UndeadMeta
  | .ClassUnro | .ClassUnroMap | .Unro | .UnroMap | .ConstClass => .UnroMeta

/-- Type-directed attribute assignment: the setattr method resolved along
the metaclass MRO.  ReadonlyMeta guards with the write-once check on the
class dict; UnroMeta inherits that guard; UndeadMeta and the builtin type
write unconditionally. -/
def type_setattr {α : Type} (c : Container) (cls : NS α) (k : String) (v : α) :
    Except Err (NS α) :=
  match metaclassOf c with
  | .ReadonlyMeta | .UnroMeta => setattr_once cls k v
  | .plainType | .UndeadMeta => .ok (object_setattr cls k v)

/-- Type-directed attribute deletion: UndeadMeta raises unconditionally,
UnroMeta inherits that; ReadonlyMeta and the builtin type delete through
the primitive. -/
def type_delattr {α : Type} (c : Container) (cls : NS α) (k : String) :
    Except Err (NS α) :=
  match metaclassOf c with
  | .UndeadMeta | .UnroMeta => .error .policyViolation
  | .plainType | .ReadonlyMeta => object_delattr cls k

/-- Attribute assignment on an instance: the setattr method resolved along
the class MRO.  ReadonlyMap, Readonly, Unro and UnroMap guard with the
write-once check on the instance dict; ConstClass raises unconditionally;
every other class falls through to the primitive write. -/
def instance_setattr {α : Type} (c : Container) (ns : NS α) (k : String) (v : α) :
    Except Err (NS α) :=
  match c with
  | .ReadonlyMap | .Readonly | .Unro | .UnroMap => setattr_once ns k v
  | .ConstClass => .error .policyViolation
  | _ => .ok (object_setattr ns k v)

/-- Attribute deletion on an instance: UndeadMap, Undead, Unro, UnroMap and
ConstClass raise unconditionally; every other class deletes through the
primitive. -/
def instance_delattr {α : Type} (c : Container) (ns : NS α) (k : String) :
    Except Err (NS α) :=
  match c with
  | .UndeadMap | .Undead | .Unro | .UnroMap | .ConstClass => .error .policyViolation
  | _ => object_delattr ns k

/-- Map.__setitem__: delegates through a super proxy anchored at Map, which
resolves to the primitive object-level setattr for every Map subclass, so
the write-once overrides of the subclasses are never consulted here. -/
def Map_setitem {α : Type} : NS α → String → α → NS α :=
  object_setattr

/-- Map.__delitem__: delegates through a super proxy anchored at Map, which
resolves to the primitive object-level delattr for every Map subclass, so
the no-delete overrides of the subclasses are never consulted here. -/
def Map_delitem {α : Type} : NS α → String → Except Err (NS α) :=
  object_delattr

/-- Map.__getitem__: a plain read of the instance dict. -/
def Map_getitem {α : Type} : NS α → String → Except Err α :=
  dict_get

/-- The dict builtin applied to a pair list: duplicate keys collapse, the
last occurrence of a key wins. -/
def dict_of_pairs {α : Type} (ps : List (String × α)) : NS α :=
  ps.foldl (fun d p => object_setattr d p.1 p.2) []

/-- Map.__init__ on initial pairs: one item write per entry of the
deduplicated dict into the fresh empty instance dict. -/
def Map_init {α : Type} (ps : List (String × α)) : NS α :=
  (dict_of_pairs ps).foldl (fun ns p => Map_setitem ns p.1 p.2) []

/-- The write-once flag of the governed namespace, per the spec policy
classification of each container. -/
def write_once : Container → Bool
  | .ClassReadonlyMap | .ClassReadonly | .ClassUnro | .ClassUnroMap => true
  | .ReadonlyMap | .Readonly | .Unro | .UnroMap | .ConstClass => true
  | _ => false

/-- The no-delete flag of the governed namespace, per the spec policy
classification of each container. -/
def no_delete : Container → Bool
  | .ClassUndeadMap | .ClassUndead | .ClassUnro | .ClassUnroMap => true
  | .UndeadMap | .Undead | .Unro | .UnroMap | .ConstClass => true
  | _ => false

/-- Containers whose policy governs only the shared (class-level)
namespace. -/
def shared_only : Container → Bool
  | .ClassReadonlyMap | .ClassReadonly | .ClassUndeadMap | .ClassUndead
  | .ClassUnro | .ClassUnroMap => true
  | _ => false

/-- Whether the resolved instance-level delattr raises the policy error
unconditionally. -/
def instance_no_delete : Container → Bool
  | .UndeadMap | .Undead | .Unro | .UnroMap | .ConstClass => true
  | _ => false

/-- Whether the resolved type-level delattr raises the policy error
unconditionally. -/
def type_no_delete (c : Container) : Bool :=
  match metaclassOf c with
  | .UndeadMeta | .UnroMeta => true
  | _ => false

/-- Attribute assignment on the governed namespace: the class dict for the
shared-only containers, the instance dict otherwise. -/
def governed_setattr {α : Type} (c : Container) (ns : NS α) (k : String) (v : α) :
    Except Err (NS α) :=
  if shared_only c then type_setattr c ns k v else instance_setattr c ns k v

/-- Attribute deletion on the governed namespace. -/
def governed_delattr {α : Type} (c : Container) (ns : NS α) (k : String) :
    Except Err (NS α) :=
  if shared_only c then type_delattr c ns k else instance_delattr c ns k

/-- The four-step experiment of the reset-semantics property: set, delete,
set again, read, all on the governed namespace. -/
def set_del_set_get {α : Type} (c : Container) (ns : NS α) (k : String) (v1 v2 : α) :
    Except Err α :=
  governed_setattr c ns k v1 >>= fun s1 =>
  governed_delattr c s1 k >>= fun s2 =>
  governed_setattr c s2 k v2 >>= fun s3 =>
  dict_get s3 k

/-- A container type together with its single shared class dict and the
private instance dicts of its live instances. -/
structure World (α : Type) where
  shared : NS α
  insts : List (NS α)
deriving Repr

/-- Type-directed attribute assignment inside a world: only the shared
class dict is touched. -/
def World.typeSet {α : Type} (w : World α) (c : Container) (k : String) (v : α) :
    Except Err (World α) :=
  (type_setattr c w.shared k v).map (fun s => ⟨s, w.insts⟩)

/-- Attribute assignment on instance i inside a world: only the dict of
instance i is touched. -/
def World.instSet {α : Type} (w : World α) (c : Container) (i : Nat) (k : String) (v : α) :
    Except Err (World α) :=
  (instance_setattr c (w.insts.getD i []) k v).map (fun s => ⟨w.shared, w.insts.set i s⟩)

/-- Item read of instance i inside a world: reads only the private dict of
instance i (Map.__getitem__ performs no class-dict fallback). -/
def World.instGetItem {α : Type} (w : World α) (i : Nat) (k : String) : Except Err α :=
  Map_getitem (w.insts.getD i []) k

/-- Read of the shared class dict inside a world. -/
def World.typeGet {α : Type} (w : World α) (k : String) : Except Err α :=
  dict_get w.shared k

/-! Basic dict lemmas. -/

theorem NS.get_erase_self {α : Type} (ns : NS α) (k : String) :
    NS.get (NS.erase ns k) k = none := by
  induction ns with
  | nil => rfl
  | cons p t ih =>
    obtain ⟨k2, v⟩ := p
    by_cases h : k2 = k
    · simpa [NS.erase, h] using ih
    · simp [NS.erase, NS.get, h, ih]

theorem NS.get_erase_ne {α : Type} (ns : NS α) (k q : String) (h : ¬ q = k) :
    NS.get (NS.erase ns k) q = NS.get ns q := by
  induction ns with
  | nil => rfl
  | cons p t ih =>
    obtain ⟨k2, v⟩ := p
    by_cases h2 : k2 = k
    · subst h2
      have h3 : ¬ k2 = q := fun h4 => h h4.symm
      simp [NS.erase, NS.get, h3, ih]
    · by_cases h3 : k2 = q
      · subst h3
        simp [NS.erase, NS.get, h2]
      · simp [NS.erase, NS.get, h2, h3, ih]

theorem NS.get_setattr_self {α : Type} (ns : NS α) (k : String) (v : α) :
    NS.get (object_setattr ns k v) k = some v := by
  simp [object_setattr, NS.get]

theorem NS.get_setattr_ne {α : Type} (ns : NS α) (k q : String) (v : α)
    (h : ¬ q = k) :
    NS.get (object_setattr ns k v) q = NS.get ns q := by
  have h2 : ¬ k = q := fun h3 => h h3.symm
  simp [object_setattr, NS.get, h2, NS.get_erase_ne ns k q h]

theorem NS.contains_setattr_self {α : Type} (ns : NS α) (k : String) (v : α) :
    NS.contains (object_setattr ns k v) k = true := by
  simp [NS.contains, NS.get_setattr_self]

theorem NS.contains_erase_self {α : Type} (ns : NS α) (k : String) :
    NS.contains (NS.erase ns k) k = false := by
  simp [NS.contains, NS.get_erase_self]

theorem except_ok_bind {ε α β : Type} (a : α) (f : α → Except ε β) :
    (Except.ok a : Except ε α) >>= f = f a := rfl

/-! Claim theorems on the container engine. -/

/-- C1: evaluation at the failing input.  The claim says the attribute
style and the mapping style enforce write-once identically; in the code
the attribute style rejects a second set of the same name on a
ReadonlyMap instance, but the mapping style silently overwrites, because
Map.__setitem__ resolves to the primitive setattr and never consults the
write-once override, so a subsequent read returns the second value. -/
theorem c1_mapping_style_bypasses_write_once :
    instance_setattr Container.ReadonlyMap [("a", (1 : Nat))] "a" 2
      = .error Err.policyViolation
    ∧ Map_setitem (Map_setitem ([] : NS Nat) "a" 1) "a" 2 = [("a", 2)]
    ∧ Map_getitem (Map_setitem (Map_setitem ([] : NS Nat) "a" 1) "a" 2) "a"
      = .ok 2 := by
  refine ⟨?_, ?_, ?_⟩ <;> rfl

/-- C2: evaluation at the failing input.  The claim says no operation
sequence on a no-delete container moves a set slot back to unset; in the
code the attribute style rejects deletion on an UndeadMap instance, but
the mapping style deletes the slot, because Map.__delitem__ resolves to
the primitive delattr and never consults the no-delete override, so the
slot becomes unset again. -/
theorem c2_mapping_style_bypasses_no_delete :
    instance_delattr Container.UndeadMap [("a", (1 : Nat))] "a"
      = .error Err.policyViolation
    ∧ Map_delitem [("a", (1 : Nat))] "a" = .ok []
    ∧ Map_getitem ([] : NS Nat) "a" = .error Err.keyNotFound := by
  refine ⟨?_, ?_, ?_⟩ <;> rfl

/-- C4 counterexample: deleting a never-set name on an Undead instance
fails with the unconditional policy error, not with the missing-name
error the claim requires. -/
theorem c4_counterexample :
    instance_delattr Container.Undead ([] : NS Nat) "a"
      = .error Err.policyViolation
    ∧ instance_delattr Container.Undead ([] : NS Nat) "a"
      ≠ .error Err.keyNotFound := by
  constructor
  · rfl
  · intro h
    simp [instance_delattr] at h

/-- C4 amended: deleting an unset name fails with the missing-name error
exactly on the namespaces whose policy does not forbid deletion; where
the resolved delete method raises unconditionally, the failure is the
policy error even for unset names; the mapping style always reports the
missing-name error on unset names. -/
theorem c4_amended_delete_unset {α : Type} (c : Container) (ns : NS α)
    (k : String) (h : NS.contains ns k = false) :
    instance_delattr c ns k
      = .error (if instance_no_delete c then Err.policyViolation else Err.keyNotFound)
    ∧ type_delattr c ns k
      = .error (if type_no_delete c then Err.policyViolation else Err.keyNotFound)
    ∧ Map_delitem ns k = .error Err.keyNotFound := by
  refine ⟨?_, ?_, ?_⟩
  · cases c <;> simp [instance_delattr, instance_no_delete, object_delattr, h]
  · cases c <;>
      simp [type_delattr, type_no_delete, metaclassOf, object_delattr, h]
  · simp [Map_delitem, object_delattr, h]

/-- Witness for C4 amended at the Undead container and an empty dict. -/
theorem c4_amended_delete_unset_witness :
    instance_delattr Container.Undead ([] : NS Nat) "a"
      = .error (if instance_no_delete Container.Undead then Err.policyViolation
          else Err.keyNotFound) :=
  (c4_amended_delete_unset Container.Undead [] "a" rfl).1

/-- C6: for every write-once container whose policy has no delete
restriction, a permitted delete resets the slot so that one more write is
allowed: set, delete, set again all succeed on the governed namespace and
the final read returns the second value. -/
theorem c6_reset_semantics {α : Type} (c : Container) (ns : NS α) (k : String)
    (v1 v2 : α) (hw : write_once c = true) (hn : no_delete c = false)
    (h : NS.contains ns k = false) :
    set_del_set_get c ns k v1 v2 = .ok v2 := by
  cases c <;>
    simp_all [write_once, no_delete, set_del_set_get, governed_setattr,
      governed_delattr, shared_only, instance_setattr, instance_delattr,
      type_setattr, type_delattr, metaclassOf, setattr_once, object_delattr,
      dict_get, NS.contains_setattr_self, NS.contains_erase_self,
      NS.get_setattr_self, except_ok_bind]

/-- Witness for C6 at the Readonly container. -/
theorem c6_reset_semantics_witness :
    set_del_set_get Container.Readonly ([] : NS Nat) "a" 1 2 = .ok 2 :=
  c6_reset_semantics Container.Readonly [] "a" 1 2 rfl rfl rfl

/-- C7: ConstClass rejects every instance-level set and delete
unconditionally, even for never-set names, while its shared class-level
namespace enforces exactly write-once plus no-delete: a first type-level
set of an unset name succeeds, a second type-level set of it fails, and a
type-level delete fails. -/
theorem c7_ConstClass_policies {α : Type} (ns cls cls2 : NS α) (k : String)
    (v v2 : α) :
    instance_setattr Container.ConstClass ns k v = .error Err.policyViolation
    ∧ instance_delattr Container.ConstClass ns k = .error Err.policyViolation
    ∧ (NS.contains cls k = false →
        type_setattr Container.ConstClass cls k v = .ok (object_setattr cls k v))
    ∧ (type_setattr Container.ConstClass cls k v = .ok cls2 →
        type_setattr Container.ConstClass cls2 k v2 = .error Err.policyViolation)
    ∧ type_delattr Container.ConstClass cls k = .error Err.policyViolation := by
  refine ⟨rfl, rfl, ?_, ?_, rfl⟩
  · intro hc
    simp [type_setattr, metaclassOf, setattr_once, hc]
  · intro h4
    by_cases hc : NS.contains cls k
    · simp [type_setattr, metaclassOf, setattr_once, hc] at h4
    · simp [type_setattr, metaclassOf, setattr_once, hc] at h4
      subst h4
      simp [type_setattr, metaclassOf, setattr_once, NS.contains_setattr_self]

theorem getD_set_ne {α : Type} :
    ∀ (l : List (NS α)) (i j : Nat) (s : NS α), i ≠ j →
      (l.set i s).getD j [] = l.getD j []
  | [], _, _, _, _ => rfl
  | _ :: _, 0, 0, _, h => absurd rfl h
  | _ :: _, 0, _ + 1, _, _ => rfl
  | _ :: _, _ + 1, 0, _, _ => rfl
  | _ :: t, i + 1, j + 1, s, h =>
    getD_set_ne t i j s (fun h2 => h (by rw [h2]))

theorem getD_eq_nil_of_le {α : Type} :
    ∀ (l : List (NS α)) (i : Nat), l.length ≤ i → l.getD i [] = []
  | [], _, _ => rfl
  | _ :: _, 0, h => absurd h (by simp)
  | _ :: t, i + 1, h => getD_eq_nil_of_le t i (Nat.le_of_succ_le_succ h)

/-- C3: scope isolation.  A type-directed set touches only the shared
class dict, so an item read of any instance is unchanged; a set on
instance i touches only the dict of instance i, so the shared dict and
every other instance are unchanged; and an item read on a fresh instance
(one whose private dict does not exist yet) reports the missing-name
error, never a value from the shared dict. -/
theorem c3_scope_isolation {α : Type} (c : Container) (k : String) (v : α)
    (w : World α) (i j : Nat) :
    (∀ w2, World.typeSet w c k v = .ok w2 →
        World.instGetItem w2 i k = World.instGetItem w i k)
    ∧ (∀ w2, World.instSet w c i k v = .ok w2 →
        World.typeGet w2 k = World.typeGet w k)
    ∧ (∀ w2, World.instSet w c i k v = .ok w2 → i ≠ j →
        World.instGetItem w2 j k = World.instGetItem w j k)
    ∧ (w.insts.length ≤ i → World.instGetItem w i k = .error Err.keyNotFound) := by
  refine ⟨?_, ?_, ?_, ?_⟩
  · intro w2 h2
    unfold World.typeSet at h2
    cases htyp : type_setattr c w.shared k v with
    | ok s =>
      rw [htyp] at h2
      simp [Except.map] at h2
      subst h2
      rfl
    | error e =>
      rw [htyp] at h2
      simp [Except.map] at h2
  · intro w2 h2
    unfold World.instSet at h2
    cases hins : instance_setattr c (w.insts.getD i []) k v with
    | ok s =>
      rw [hins] at h2
      simp [Except.map] at h2
      subst h2
      rfl
    | error e =>
      rw [hins] at h2
      simp [Except.map] at h2
  · intro w2 h2 hij
    unfold World.instSet at h2
    cases hins : instance_setattr c (w.insts.getD i []) k v with
    | ok s =>
      rw [hins] at h2
      simp [Except.map] at h2
      subst h2
      show Map_getitem ((w.insts.set i s).getD j []) k
        = Map_getitem (w.insts.getD j []) k
      rw [getD_set_ne w.insts i j s hij]
    | error e =>
      rw [hins] at h2
      simp [Except.map] at h2
  · intro hle
    show Map_getitem (w.insts.getD i []) k = .error Err.keyNotFound
    rw [getD_eq_nil_of_le w.insts i hle]
    rfl

/-- Witness for C3: a type-level write on ReadonlyMap leaves the item
read of instance 0 unchanged. -/
theorem c3_scope_isolation_witness :
    World.instGetItem (⟨[("a", 1)], [[], []]⟩ : World Nat) 0 "a"
      = World.instGetItem (⟨[], [[], []]⟩ : World Nat) 0 "a" :=
  (c3_scope_isolation Container.ReadonlyMap "a" 1 ⟨[], [[], []]⟩ 0 1).1
    ⟨[("a", 1)], [[], []]⟩ rfl

/-- Witness for C7 at an empty class dict. -/
theorem c7_ConstClass_policies_witness :
    type_setattr Container.ConstClass ([] : NS Nat) "a" 1
      = .ok (object_setattr [] "a" 1) :=
  (c7_ConstClass_policies [] [] (object_setattr [] "a" 1) "a" 1 2).2.2.1 rfl

/-! Lemmas about dicts built by repeated primitive writes, used for the
bulk-construction claim. -/

/-- The keys of a dict are pairwise distinct. -/
def NodupKeys {α : Type} (ns : NS α) : Prop :=
  ns.Pairwise (fun p q => p.1 ≠ q.1)

theorem NS.erase_sublist {α : Type} :
    ∀ (ns : NS α) (k : String), (NS.erase ns k).Sublist ns
  | [], _ => List.Sublist.slnil
  | (k2, v) :: t, k => by
    by_cases h : k2 = k
    · simp only [NS.erase, if_pos h]
      exact List.Sublist.cons (k2, v) (NS.erase_sublist t k)
    · simp only [NS.erase, if_neg h]
      exact List.Sublist.cons₂ (k2, v) (NS.erase_sublist t k)

theorem NS.key_ne_of_mem_erase {α : Type} :
    ∀ (ns : NS α) (k : String) (p : String × α), p ∈ NS.erase ns k → p.1 ≠ k
  | [], _, _, h => absurd h (List.not_mem_nil _)
  | (k2, v) :: t, k, p, h => by
    by_cases h2 : k2 = k
    · exact NS.key_ne_of_mem_erase t k p (by simpa [NS.erase, h2] using h)
    · rcases (by simpa [NS.erase, h2] using h : p = (k2, v) ∨ p ∈ NS.erase t k) with
        h3 | h3
      · subst h3
        exact h2
      · exact NS.key_ne_of_mem_erase t k p h3

theorem nodupKeys_erase {α : Type} (ns : NS α) (k : String) (h : NodupKeys ns) :
    NodupKeys (NS.erase ns k) :=
  h.sublist (NS.erase_sublist ns k)

theorem nodupKeys_setattr {α : Type} (ns : NS α) (k : String) (v : α)
    (h : NodupKeys ns) : NodupKeys (object_setattr ns k v) :=
  List.Pairwise.cons
    (fun q hq h2 => NS.key_ne_of_mem_erase ns k q hq h2.symm)
    (nodupKeys_erase ns k h)

theorem nodupKeys_foldl_setattr {α : Type} :
    ∀ (ps : List (String × α)) (acc : NS α), NodupKeys acc →
      NodupKeys (ps.foldl (fun d p => object_setattr d p.1 p.2) acc)
  | [], _, h => h
  | p :: t, acc, h =>
    nodupKeys_foldl_setattr t (object_setattr acc p.1 p.2)
      (nodupKeys_setattr acc p.1 p.2 h)

theorem nodupKeys_dict_of_pairs {α : Type} (ps : List (String × α)) :
    NodupKeys (dict_of_pairs ps) :=
  nodupKeys_foldl_setattr ps [] List.Pairwise.nil

theorem NS.get_eq_none_of_forall_ne {α : Type} :
    ∀ (ns : NS α) (k : String), (∀ p ∈ ns, k ≠ p.1) → NS.get ns k = none
  | [], _, _ => rfl
  | (k2, v) :: t, k, h => by
    have h1 : ¬ k2 = k := fun h2 => h (k2, v) (List.mem_cons_self _ _) h2.symm
    simp [NS.get, h1,
      NS.get_eq_none_of_forall_ne t k (fun p hp => h p (List.mem_cons_of_mem _ hp))]

theorem get_foldl_setattr {α : Type} :
    ∀ (d : NS α), NodupKeys d → ∀ (acc : NS α) (k : String),
      NS.get (d.foldl (fun ns p => object_setattr ns p.1 p.2) acc) k
        = (NS.get d k).or (NS.get acc k)
  | [], _, acc, k => by simp [NS.get, Option.or]
  | (k2, v2) :: t, hd, acc, k => by
    have hhead : ∀ q ∈ t, k2 ≠ q.1 := fun q hq =>
      (List.pairwise_cons.mp hd).1 q hq
    have htail : NodupKeys t := (List.pairwise_cons.mp hd).2
    have ih := get_foldl_setattr t htail (object_setattr acc k2 v2) k
    by_cases hk : k2 = k
    · subst hk
      have hnone : NS.get t k2 = none :=
        NS.get_eq_none_of_forall_ne t k2 (fun p hp h2 => hhead p hp h2)
      simp [List.foldl, ih, hnone, NS.get, NS.get_setattr_self, Option.or]
    · have h2 : ¬ k = k2 := fun h3 => hk h3.symm
      simp [List.foldl, ih, NS.get, hk, NS.get_setattr_ne acc k2 k v2 h2,
        NS.get_erase_ne acc k2 k h2]

/-- C5 counterexample: bulk construction of a write-once mapping container
from initial pairs with a duplicate key does not fail with a policy
error; the dict builtin collapses the duplicate before any write happens
and the writes are the unconditional item writes, so construction
succeeds and the read returns the last value. -/
theorem c5_counterexample :
    Map_init [("a", (1 : Nat)), ("a", 2)] = [("a", 2)]
    ∧ Map_getitem (Map_init [("a", (1 : Nat)), ("a", 2)]) "a" = .ok 2 :=
  ⟨rfl, rfl⟩

/-- C5 amended: bulk construction first collapses the supplied pairs
through the dict builtin (duplicate keys resolved to the last occurrence)
and then performs one unconditional item write per surviving entry, so it
never fails for a policy reason and the constructed store reads exactly
as the deduplicated dict. -/
theorem c5_init_reads_as_dict {α : Type} (ps : List (String × α)) (k : String) :
    NS.get (Map_init ps) k = NS.get (dict_of_pairs ps) k := by
  have h := get_foldl_setattr (dict_of_pairs ps) (nodupKeys_dict_of_pairs ps) [] k
  simp only [Map_init, Map_setitem]
  rw [h]
  cases NS.get (dict_of_pairs ps) k <;> rfl

/-!
Part 2 embeds src/easyvar/deprecate.py.  Version strings are parsed as
dot-separated release numbers (the fragment of the packaging library the
program exercises); release tuples compare lexicographically with
zero-padding.  A field of DepWrapper holds either the unparsed string
(for the empty string, which the code leaves unparsed) or a parsed
version; comparing mixed kinds is a Python TypeError, modelled as none.
The warning machinery is abstracted to which object the wrapper factory
returns (the original callable, or a wrapper carrying a warning class and
a filter action) and to the observable effect of one invocation (the list
of warnings emitted before delegating).
-/

/-- Split a character sequence at the dot separators. -/
def split_dots : List Char → List (List Char)
  | [] => [[]]
  | c :: t =>
    let r := split_dots t
    if c = '.' then [] :: r
    else
      match r with
      | [] => [[c]]
      | h :: t2 => (c :: h) :: t2

/-- One decimal digit. -/
def digit? (c : Char) : Option Nat :=
  if 48 ≤ c.toNat && c.toNat ≤ 57 then some (c.toNat - 48) else none

/-- A nonempty all-digit component read as a decimal number. -/
def chars_to_nat? (cs : List Char) : Option Nat :=
  if cs = [] then none
  else cs.foldlM (fun acc c => (digit? c).map (fun d => acc * 10 + d)) 0

/-- Parse a dot-separated numeric version string into its release tuple;
none models the parse exception for anything else. -/
def version_parse (s : String) : Option (List Nat) :=
  (split_dots s.data).mapM chars_to_nat?

/-- Some entry of a release tuple is positive. -/
def any_pos : List Nat → Bool
  | [] => false
  | b :: bt => if 0 < b then true else any_pos bt

/-- Strict lexicographic comparison of release tuples with zero-padding. -/
def release_lt : List Nat → List Nat → Bool
  | [], b => any_pos b
  | a :: at2, [] => if 0 < a then false else release_lt at2 []
  | a :: at2, b :: bt =>
    if a < b then true else if b < a then false else release_lt at2 bt

/-- The greater-or-equal comparison on release tuples. -/
def release_ge (a b : List Nat) : Bool :=
  !(release_lt a b)

/-- Lexicographic comparison of strings by code points, as in Python. -/
def chars_le : List Char → List Char → Bool
  | [], _ => true
  | _ :: _, [] => false
  | a :: at2, b :: bt =>
    if a.val < b.val then true else if b.val < a.val then false else chars_le at2 bt

/-- The Python greater-or-equal on strings. -/
def str_ge (a b : String) : Bool :=
  chars_le b.data a.data

/-- A version marker after the conditional parse in DepWrapper.__init__:
the empty string stays a string, anything else is parsed. -/
inductive VerField where
  | strF (s : String)
  | verF (v : List Nat)
deriving DecidableEq, Repr

/-- The conditional parse applied to each of ver_cur, ver_dep, ver_end. -/
def parse_field (s : String) : Option VerField :=
  if s = "" then some (.strF s)
  else (version_parse s).map VerField.verF

/-- Python truthiness of a field: the empty string is falsy, a parsed
version object is always truthy. -/
def truthy : VerField → Bool
  | .strF s => s != ""
  | .verF _ => true

/-- The Python greater-or-equal between two fields; none models the
TypeError on mixed kinds. -/
def field_ge : VerField → VerField → Option Bool
  | .verF a, .verF b => some (release_ge a b)
  | .strF a, .strF b => some (str_ge a b)
  | _, _ => none

/-- The three deprecation statuses of DepWrapper. -/
inductive DepStatus where
  | STATUS_OK | STATUS_DEPRECATED | STATUS_UNSUPPORTED
deriving DecidableEq, Repr

/-- The status computation at the end of DepWrapper.__init__: unsupported
when ver_end is truthy and current is at least ver_end, otherwise
deprecated when current is at least ver_dep, otherwise ok. -/
def compute_status (vc vd ve : VerField) : Option DepStatus :=
  if truthy ve then
    match field_ge vc ve with
    | none => none
    | some true => some .STATUS_UNSUPPORTED
    | some false =>
      (field_ge vc vd).map (fun b => if b then .STATUS_DEPRECATED else .STATUS_OK)
  else
    (field_ge vc vd).map (fun b => if b then .STATUS_DEPRECATED else .STATUS_OK)

/-- The classifier over raw version strings: conditional parse of the
three markers, then the status computation. -/
def classify (ver_cur ver_dep ver_end : String) : Option DepStatus := do
  let vc ← parse_field ver_cur
  let vd ← parse_field ver_dep
  let ve ← parse_field ver_end
  compute_status vc vd ve

/-- The exceptions of the deprecation facility. -/
inductive DepError where
  | valueError | notImplementedError | versionError
deriving DecidableEq, Repr

/-- The state DepWrapper.__init__ leaves behind, restricted to the fields
the later calls consult. -/
structure DepWrapper where
  func_callable : Bool
  me : String
  status : DepStatus
  do_at_dep : String
  do_at_end : String
deriving DecidableEq, Repr

/-- DepWrapper.__init__: reject a non-callable target without a display
name immediately; otherwise record callability and compute the status
from the version markers. -/
def DepWrapper.init (isCallable : Bool)
    (me ver_cur ver_dep ver_end do_at_dep do_at_end : String) :
    Except DepError DepWrapper :=
  if !isCallable && me == "" then .error .valueError
  else
    match classify ver_cur ver_dep ver_end with
    | none => .error .versionError
    | some st => .ok ⟨isCallable, me, st, do_at_dep, do_at_end⟩

/-- The warning classes the wrapper can emit. -/
inductive WarnKind where
  | DeprecatedWarning | UnsupportedWarning
deriving DecidableEq, Repr

/-- What the wrapper factory returns: the original callable unchanged, or
a wrapper carrying the warning and the filter action it installs. -/
inductive FuncResult where
  | original
  | wrapped (w : WarnKind) (filt : String)
deriving DecidableEq, Repr

/-- get_deprecation_function together with the warning configuration: the
original callable for STATUS_OK (no decoration), otherwise a wrapper
with the DeprecatedWarning or UnsupportedWarning and the matching filter
action. -/
def get_deprecation_function (st : DepStatus) (do_at_dep do_at_end : String) :
    FuncResult :=
  match st with
  | .STATUS_OK => .original
  | .STATUS_DEPRECATED => .wrapped .DeprecatedWarning do_at_dep
  | .STATUS_UNSUPPORTED => .wrapped .UnsupportedWarning do_at_end

/-- get_deprecation_wrapper: refuse a non-callable target with the
not-implemented error, otherwise return the deprecation function. -/
def DepWrapper.get_deprecation_wrapper (w : DepWrapper) :
    Except DepError FuncResult :=
  if w.func_callable then
    .ok (get_deprecation_function w.status w.do_at_dep w.do_at_end)
  else .error .notImplementedError

/-- get_wrapper delegates to get_deprecation_wrapper. -/
def DepWrapper.get_wrapper (w : DepWrapper) : Except DepError FuncResult :=
  w.get_deprecation_wrapper

/-- One invocation of the returned object: the original delegates with no
warning; a wrapper emits its warning and then delegates. -/
def invoke {α β : Type} (r : FuncResult) (f : α → β) (x : α) :
    List WarnKind × β :=
  match r with
  | .original => ([], f x)
  | .wrapped w _ => ([w], f x)

/-- The deprecate decorator applied bare to a callable: every keyword
argument keeps its empty-string default. -/
def deprecate_bare : Except DepError FuncResult := do
  let w ← DepWrapper.init true "" "" "" "" "" ""
  w.get_wrapper

/-- C8: the deprecation classifier on parsed version markers returns
unsupported when current is at least removed-in, otherwise deprecated
when current is at least deprecated-from, otherwise ok; on the concrete
markers 1.5 and 3.0 a current of 2.0 is deprecated, 3.0 is unsupported
and 1.0 is ok, and in the ok case the wrapper factory returns the
original callable, whose invocation emits no warning. -/
theorem c8_deprecation_classifier (dd de : String) :
    (∀ sc sd se vc vd ve,
        parse_field sc = some (VerField.verF vc) →
        parse_field sd = some (VerField.verF vd) →
        parse_field se = some (VerField.verF ve) →
        classify sc sd se
          = some (if release_ge vc ve then DepStatus.STATUS_UNSUPPORTED
              else if release_ge vc vd then DepStatus.STATUS_DEPRECATED
              else DepStatus.STATUS_OK))
    ∧ classify "2.0" "1.5" "3.0" = some DepStatus.STATUS_DEPRECATED
    ∧ classify "3.0" "1.5" "3.0" = some DepStatus.STATUS_UNSUPPORTED
    ∧ classify "1.0" "1.5" "3.0" = some DepStatus.STATUS_OK
    ∧ get_deprecation_function DepStatus.STATUS_OK dd de = FuncResult.original
    ∧ (∀ (f : Nat → Nat) (x : Nat), invoke FuncResult.original f x = ([], f x)) := by
  refine ⟨?_, by decide, by decide, by decide, rfl, fun _ _ => rfl⟩
  intro sc sd se vc vd ve h1 h2 h3
  simp only [classify, h1, h2, h3, Option.bind_some, bind, Option.bind,
    compute_status, truthy, field_ge]
  cases hge : release_ge vc ve <;> cases hgd : release_ge vc vd <;>
    simp [hge, hgd, Option.map]

/-- Witness for C8 at the concrete markers. -/
theorem c8_deprecation_classifier_witness :
    classify "2.0" "1.5" "3.0"
      = some (if release_ge [2, 0] [3, 0] then DepStatus.STATUS_UNSUPPORTED
          else if release_ge [2, 0] [1, 5] then DepStatus.STATUS_DEPRECATED
          else DepStatus.STATUS_OK) :=
  (c8_deprecation_classifier "" "").1 "2.0" "1.5" "3.0" [2, 0] [1, 5] [3, 0]
    (by decide) (by decide) (by decide)

/-- C9: deprecating a non-callable never yields a working proxy: with no
display name the constructor rejects immediately with the value error,
and when construction succeeds on a non-callable, requesting the wrapper
fails with the not-implemented error. -/
theorem c9_non_callable_never_wrapped (me vc vd ve dd de : String) :
    (me = "" → DepWrapper.init false me vc vd ve dd de = .error DepError.valueError)
    ∧ (∀ w, DepWrapper.init false me vc vd ve dd de = .ok w →
        DepWrapper.get_deprecation_wrapper w = .error DepError.notImplementedError) := by
  constructor
  · intro h
    subst h
    rfl
  · intro w hw
    unfold DepWrapper.init at hw
    by_cases hme : me == ""
    · simp [hme] at hw
    · simp only [hme, Bool.and_false] at hw
      cases hcl : classify vc vd ve with
      | none => rw [hcl] at hw; exact absurd hw (by simp)
      | some st =>
        rw [hcl] at hw
        simp at hw
        subst hw
        rfl

/-- Witness for C9: both failure modes at concrete inputs. -/
theorem c9_non_callable_never_wrapped_witness :
    DepWrapper.init false "" "" "" "" "" "" = .error DepError.valueError :=
  (c9_non_callable_never_wrapped "" "" "" "" "" "").1 rfl

/-- C10: with all three version markers left as empty strings the status
comparison degenerates to an empty-string comparison that succeeds, so
the target is classified deprecated, and the bare deprecate call replaces
the callable with a wrapper that emits the DeprecatedWarning on every
invocation before delegating. -/
theorem c10_empty_markers_mean_deprecated :
    classify "" "" "" = some DepStatus.STATUS_DEPRECATED
    ∧ deprecate_bare = .ok (FuncResult.wrapped WarnKind.DeprecatedWarning "")
    ∧ (∀ (f : Nat → Nat) (x : Nat),
        invoke (FuncResult.wrapped WarnKind.DeprecatedWarning "") f x
          = ([WarnKind.DeprecatedWarning], f x)) :=
  ⟨rfl, rfl, fun _ _ => rfl⟩

end Easyvar
